import Mathlib

/-!
Verification of the firmware-update module
(`src/library/dellemc_idrac_firmware_update.py`).

The Python module is embedded shallowly: the mutable iDRAC session becomes
explicit state passing, the two SDK update entry points become an oracle
record (`Remote`), `module.fail_json` (which terminates the process) becomes
the `RepoResult.failJson` constructor, and a caught Python exception becomes
the `Except.error` case of the oracle.  String primitives (`str.lower`,
`str.endswith`, `str.startswith`, the `in` substring test, `urlparse` and the
anchored IPv4 regular expression) are modelled over `List Char`.
-/

namespace FwUpdate

/-- Python `str.lower()` over the characters of a string (ASCII-faithful). -/
def lowerChars (s : String) : List Char := s.toList.map Char.toLower

/-- Python substring containment over char lists (`needle in hay`). -/
def hasSub (needle : List Char) : List Char → Bool
  | [] => needle.isEmpty
  | c :: t => needle.isPrefixOf (c :: t) || hasSub needle t

/-- Python `n in h` for strings (substring test). -/
def subStr (n h : String) : Bool := hasSub n.toList h.toList

/-- Line 308: `catalog_file_name.lower().endswith(\x27.xml\x27)`. -/
def catalogNameOk (s : String) : Bool :=
  List.isSuffixOf ".xml".toList (lowerChars s)

/-- Line 316: `share_name.lower().startswith((\x27http://\x27, \x27https://\x27, \x27ftp://\x27))`. -/
def shareIsUrl (s : String) : Bool :=
  List.isPrefixOf "http://".toList (lowerChars s) ||
  List.isPrefixOf "https://".toList (lowerChars s) ||
  List.isPrefixOf "ftp://".toList (lowerChars s)

/-- Line 312: `any(gen in idrac.ServerGeneration for gen in [\x2712\x27, \x2713\x27])`. -/
def genLegacy (g : String) : Bool := subStr "12" g || subStr "13" g

/-- Characters allowed in a URL scheme by `urllib`-style parsing. -/
def schemeChar (c : Char) : Bool :=
  c.isAlpha || c.isDigit || c == '+' || c == '-' || c == '.'

/-- Split a char list at the first occurrence of `sep` (the separator is dropped). -/
def splitFirst (sep : Char) : List Char → Option (List Char × List Char)
  | [] => none
  | c :: t =>
    if c = sep then some ([], t)
    else (splitFirst sep t).map (fun q => (c :: q.1, q.2))

/-- Character that does not terminate the netloc component (`/`, `?`, `#` do). -/
def notNetlocEnd (c : Char) : Bool := !(c == '/' || c == '?' || c == '#')

/-- Character that does not terminate the path component (`?`, `#` do). -/
def notPathEnd (c : Char) : Bool := !(c == '?' || c == '#')

/-- A C0 control character or the space character (codepoints up to 0x20),
the class modern `urllib` strips from the start of a URL. -/
def c0OrSpace (c : Char) : Bool := c.toNat ≤ 32

/-- Modern `urllib.parse.urlsplit` removes every ASCII tab, carriage return
and newline from the URL before parsing it. -/
def removedURLBytes (cs : List Char) : List Char :=
  cs.filter (fun c => !(c == '\t' || c == '\r' || c == '\n'))

/-- Python `urllib._splitparams`: drop the `;params` part of the last path segment. -/
def stripParams (p : List Char) : List Char :=
  if p.contains ';' then
    if p.contains '/' then
      let tl := (p.reverse.takeWhile (fun c => c != '/')).reverse
      let hd := p.take (p.length - tl.length)
      if tl.contains ';' then hd ++ tl.takeWhile (fun c => c != ';') else p
    else p.takeWhile (fun c => c != ';')
  else p

/-- The three components of `urlparse` that the module reads. -/
structure ParsedUrl where
  scheme : String
  netloc : String
  path : String
deriving DecidableEq

/-- Model of Python `urlparse` restricted to the `scheme`, `netloc` and `path`
attributes read at lines 207-229: per current `urllib`, leading C0-control and
space characters are stripped and every tab, carriage return and newline is
removed; then the scheme is the lower-cased text before the first `:` when it
is non-empty and made of scheme characters, the netloc is the text after `//`
up to `/`, `?` or `#`, and the path is the remainder up to `?` or `#` with the
`;params` suffix of its last segment removed. -/
def urlparse3 (s : String) : ParsedUrl :=
  let cs := removedURLBytes (s.toList.dropWhile c0OrSpace)
  let sr : List Char × List Char :=
    match splitFirst ':' cs with
    | some q => if !q.1.isEmpty && q.1.all schemeChar then (q.1.map Char.toLower, q.2) else ([], cs)
    | none => ([], cs)
  let nr : List Char × List Char :=
    match sr.2 with
    | '/' :: '/' :: t => (t.takeWhile notNetlocEnd, t.dropWhile notNetlocEnd)
    | r => ([], r)
  ⟨⟨sr.1⟩, ⟨nr.1⟩, ⟨stripParams (nr.2.takeWhile notPathEnd)⟩⟩

/-- Char lists matched by the octet alternation `25[0-5]|2[0-4]\d|[0-1]?\d?\d`
of the regex at line 201. -/
def octetChars : List Char → Bool
  | [a] => a.isDigit
  | [a, b] => a.isDigit && b.isDigit
  | [a, b, c] =>
    (a == '2' && b == '5' && decide ('0' ≤ c) && decide (c ≤ '5')) ||
    (a == '2' && decide ('0' ≤ b) && decide (b ≤ '4') && c.isDigit) ||
    ((a == '0' || a == '1') && b.isDigit && c.isDigit)
  | _ => false

/-- All ways to split off a non-empty prefix of at most three characters
(every length an octet alternative can consume). -/
def splitsUpTo3 : List Char → List (List Char × List Char)
  | [] => []
  | a :: t =>
    ([a], t) ::
      match t with
      | [] => []
      | b :: u =>
        ([a, b], u) ::
          match u with
          | [] => []
          | c :: v => [([a, b, c], v)]

/-- The lookahead `(?=$|(?::(\d{2,5})))` of the regex at line 201: the anchor
`$` matches at the end of the string and also just before a newline that ends
the string, and the alternative is a colon followed by at least two digits
(later characters are not inspected). -/
def portAhead : List Char → Bool
  | [] => true
  | ['\n'] => true
  | ':' :: d1 :: d2 :: _ => d1.isDigit && d2.isDigit
  | _ => false

/-- Backtracking matcher for `octet ("." octet){k} lookahead`, anchored at the
start of the list exactly as `re.match` is. -/
def ipv4Core : Nat → List Char → Bool
  | 0, cs => (splitsUpTo3 cs).any (fun q => octetChars q.1 && portAhead q.2)
  | k + 1, cs =>
    (splitsUpTo3 cs).any (fun q =>
      octetChars q.1 &&
        match q.2 with
        | '.' :: rest => ipv4Core k rest
        | _ => false)

/-- Line 215: `re.match(ipv4_re, p.netloc)` succeeds. -/
def ipv4Match (s : String) : Bool := ipv4Core 3 s.toList

/-- A remote response dictionary (only string values are needed by the module,
which reads the `Status` key and compares it with `Success`). -/
abbrev RemoteResp := List (String × String)

/-- Keyword arguments of `idrac.update_mgr.update_from_repo_url` (lines 224-229). -/
structure UrlRequest where
  ipaddress : String
  share_type : String
  share_name : String
  share_user : Option String
  share_pwd : Option String
  catalog_file : String
  apply_update : Bool
  reboot_needed : Bool
  job_wait : Bool
deriving DecidableEq

/-- The composed catalog path of lines 266-268: a `FileOnShare` built from the
share locator, the attached credentials, and the catalog file resolved on it. -/
structure CatalogPath where
  share : String
  user : Option String
  pwd : Option String
  file : String
deriving DecidableEq

/-- Arguments of `idrac.update_mgr.update_from_repo` (lines 270-273). -/
structure NwRequest where
  catalog_path : CatalogPath
  apply_update : Bool
  reboot_needed : Bool
  job_wait : Bool
deriving DecidableEq

/-- One observed invocation of the remote update service, together with the
session protocol flag (`idrac.use_redfish`) at the moment of the call. -/
inductive Call where
  | url (r : UrlRequest) (use_redfish : Bool)
  | nw (r : NwRequest) (use_redfish : Bool)
deriving DecidableEq

/-- Oracle for the SDK update manager: each entry point either returns a
response dictionary or raises (`Except.error` carries the exception text). -/
structure Remote where
  urlCall : UrlRequest → Bool → Except String RemoteResp
  nwCall : NwRequest → Bool → Except String RemoteResp

/-- Value held by `msg[\x27msg\x27]`: the remote response dictionary or a plain
string (the invalid-URL text or an error message). -/
inductive MsgVal where
  | dict (d : RemoteResp)
  | str (s : String)
deriving DecidableEq

/-- The `{changed, failed, msg}` dictionary built by `update_fw_from_repo`. -/
structure Outcome where
  changed : Bool
  failed : Bool
  msg : MsgVal
deriving DecidableEq

/-- Result of `update_fw_from_repo`: either `module.fail_json` terminated the
process with a message, or the `(msg, err)` pair was returned. -/
inductive RepoResult where
  | failJson (m : String)
  | ret (o : Outcome) (err : Bool)
deriving DecidableEq

/-- The iDRAC session attributes read or written by the module. -/
structure Idrac where
  ServerGeneration : String
  use_redfish : Bool
deriving DecidableEq

/-- The module parameters consumed by `update_fw_from_repo` (lines 298-305 and
line 328); `share_user`, `share_pwd` and `share_mnt` default to `None`. -/
structure Params where
  share_name : String
  share_user : Option String
  share_pwd : Option String
  catalog_file_name : String
  apply_update : Bool
  reboot : Bool
  job_wait : Bool
  ignore_cert_warning : Bool
  share_mnt : Option String
deriving DecidableEq

/-- Line 204: the accepted URL schemes. -/
def schemes : List String := ["ftp", "http", "https"]

/-- Python rendering `str(schemes)` used in the scheme error message. -/
def schemesText : String := "[\x27ftp\x27, \x27http\x27, \x27https\x27]"

/-- Outcome of the validation part of `update_fw_from_url`: an invalid-URL
message, or the request that is handed to `update_from_repo_url`. -/
inductive UrlCheck where
  | invalid (m : String)
  | call (r : UrlRequest)
deriving DecidableEq

/-- Lines 198-229 of `update_fw_from_url`: validate the URL (scheme in the
allowed list, non-empty netloc matching the anchored IPv4 regex), substitute
`/` for an empty path, and build the `update_from_repo_url` keyword arguments.
Note that `ignore_cert_warning` is not among them. -/
def update_fw_from_url_core (share_name : String) (share_user share_pwd : Option String)
    (catalog_file_name : String) (apply_update reboot job_wait : Bool) : UrlCheck :=
  let p := urlparse3 share_name
  if !(schemes.contains p.scheme) then
    .invalid ("Invalid url: " ++ share_name ++ ". URL scheme must be one of " ++ schemesText)
  else if !(p.netloc != "" && ipv4Match p.netloc) then
    .invalid ("Invalid url: " ++ share_name ++ ". URL netloc must be a valid IPv4 or IPv6 address.")
  else
    let path := if p.path = "" then p.path ++ "/" else p.path
    .call ⟨p.netloc, p.scheme, path, share_user, share_pwd, catalog_file_name,
           apply_update, reboot, job_wait⟩

/-- Function `update_fw_from_url` (lines 166-231): on validation failure the
message string is returned with no remote call; otherwise `update_from_repo_url`
is invoked and its response (or exception) returned.  The trace records the
calls made.  The `ignore_cert_warning` parameter is accepted, as in the source,
but unused. -/
def update_fw_from_url (remote : Remote) (ur : Bool) (share_name : String)
    (share_user share_pwd : Option String) (catalog_file_name : String)
    (apply_update reboot job_wait ignore_cert_warning : Bool) :
    Except String MsgVal × List Call :=
  match update_fw_from_url_core share_name share_user share_pwd catalog_file_name
      apply_update reboot job_wait with
  | .invalid m => (.ok (.str m), [])
  | .call r =>
    (match remote.urlCall r ur with
     | .ok d => .ok (.dict d)
     | .error e => .error e, [.url r ur])

/-- Function `update_fw_from_nw_share` (lines 233-275): compose the catalog
path on the share and invoke `update_from_repo`. -/
def update_fw_from_nw_share (remote : Remote) (ur : Bool) (share_name : String)
    (share_user share_pwd : Option String) (catalog_file_name : String)
    (apply_update reboot job_wait : Bool) : Except String MsgVal × List Call :=
  let nwr : NwRequest := ⟨⟨share_name, share_user, share_pwd, catalog_file_name⟩,
                          apply_update, reboot, job_wait⟩
  (match remote.nwCall nwr ur with
   | .ok d => .ok (.dict d)
   | .error e => .error e, [.nw nwr ur])

/-- Python dictionary lookup on the response (first binding of the key). -/
def dictGet (d : RemoteResp) (k : String) : Option String :=
  match d with
  | [] => none
  | kv :: t => if kv.1 = k then some kv.2 else dictGet t k

/-- Lines 335-341: read the `Status` field of `msg[\x27msg\x27]` and decide the
`(changed, failed)` pair.  When the value is a string that contains `Status` as
a substring, the subsequent indexing `msg[\x27msg\x27][\x27Status\x27]` raises a
`TypeError`, modelled as `Except.error`. -/
def statusInterp : MsgVal → Except String (Bool × Bool)
  | .dict d =>
    match dictGet d "Status" with
    | some v => if v = "Success" then .ok (true, false) else .ok (false, true)
    | none => .ok (false, true)
  | .str s =>
    if subStr "Status" s then .error "string indices must be integers"
    else .ok (false, true)

/-- Lines 335-348: interpret the branch result into the returned
`(msg, err)` pair.  An exception (from the remote call or from the status
indexing) is caught, sets `failed`, replaces the message with
`Error: ` followed by the exception text, and sets `err`. -/
def repoFinish : Except String MsgVal → RepoResult
  | .error e => .ret ⟨false, true, .str ("Error: " ++ e)⟩ true
  | .ok m =>
    match statusInterp m with
    | .ok cf => .ret ⟨cf.1, cf.2, m⟩ false
    | .error e => .ret ⟨false, true, .str ("Error: " ++ e)⟩ true

/-- Line 309: the catalog file name error message. -/
def catalogErrMsg (s : String) : String :=
  "Invalid catalog file: " ++ s ++ ". Must end with \x27.xml\x27 or \x27.XML\x27 extension"

/-- Line 329: the missing mount point error message. -/
def mntMissingMsg : String :=
  "Error: \x27share_mnt\x27 is a mandatory argument for Redfish based firmware update using Server Configuration Profile (SCP)"

/-- Python truthiness test `not module.params.get(\x27share_mnt\x27)`: the
parameter is falsy when absent or the empty string. -/
def optFalsy : Option String → Bool
  | none => true
  | some s => s = ""

/-- Lines 311-313: force `use_redfish` off when the server generation contains
`12` or `13`. -/
def genApply (i : Idrac) : Idrac :=
  if genLegacy i.ServerGeneration then { i with use_redfish := false } else i

/-- Lines 311-348 of `update_fw_from_repo`, after the catalog name check:
apply the generation fix, branch on the share classification (URL branch forces
`use_redfish` off, network-share branch requires `share_mnt` under Redfish),
run the update and interpret the result.  Returns the result, the final
session state and the trace of remote calls. -/
def updateRepoAfterCatalogCheck (remote : Remote) (idrac : Idrac) (p : Params) :
    RepoResult × Idrac × List Call :=
  let idrac1 := genApply idrac
  if shareIsUrl p.share_name then
    let idrac2 : Idrac := { idrac1 with use_redfish := false }
    let rt := update_fw_from_url remote idrac2.use_redfish p.share_name p.share_user
        p.share_pwd p.catalog_file_name p.apply_update p.reboot p.job_wait
        p.ignore_cert_warning
    (repoFinish rt.1, idrac2, rt.2)
  else
    if idrac1.use_redfish && optFalsy p.share_mnt then
      (.failJson mntMissingMsg, idrac1, [])
    else
      let rt := update_fw_from_nw_share remote idrac1.use_redfish p.share_name p.share_user
          p.share_pwd p.catalog_file_name p.apply_update p.reboot p.job_wait
      (repoFinish rt.1, idrac1, rt.2)

/-- Function `update_fw_from_repo` (lines 277-348): the catalog file name is
validated first (`fail_json` terminates the module before any remote access),
then the body runs. -/
def update_fw_from_repo (remote : Remote) (idrac : Idrac) (p : Params) :
    RepoResult × Idrac × List Call :=
  if !(catalogNameOk p.catalog_file_name) then
    (.failJson (catalogErrMsg p.catalog_file_name), idrac, [])
  else
    updateRepoAfterCatalogCheck remote idrac p

/-- How `main` reports a returned `(msg, err)` pair (lines 393-395). -/
inductive Report where
  | failJsonR (o : Outcome)
  | exitJsonR (o : Outcome)
deriving DecidableEq

/-- Lines 393-395: `fail_json` when `err` is set, else `exit_json`. -/
def mainReport (r : Outcome × Bool) : Report :=
  if r.2 then .failJsonR r.1 else .exitJsonR r.1

/-- Oracle whose two entry points always return the same response. -/
def constRemote (d : RemoteResp) : Remote := ⟨fun _ _ => .ok d, fun _ _ => .ok d⟩

/-- Oracle whose two entry points always raise. -/
def errRemote (e : String) : Remote := ⟨fun _ _ => .error e, fun _ _ => .error e⟩

/-- Split a char list at every occurrence of `sep`. -/
def splitAll (sep : Char) (cs : List Char) : List (List Char) :=
  match cs with
  | [] => [[]]
  | c :: t =>
    let r := splitAll sep t
    if c = sep then [] :: r
    else
      match r with
      | [] => [[c]]
      | h :: u => (c :: h) :: u

/-- Decimal value of a digit list. -/
def digitsVal (cs : List Char) : Nat :=
  cs.foldl (fun a c => a * 10 + (c.toNat - 48)) 0

/-- Written from the specification text, for comparison with the code: an
octet of a dotted quad, a decimal number of at most three digits valued at
most 255. -/
def specOctetOk (t : List Char) : Bool :=
  !t.isEmpty && decide (t.length ≤ 3) && t.all Char.isDigit && decide (digitsVal t ≤ 255)

/-- Written from the specification text: four dotted octets. -/
def specDotted (h : List Char) : Bool :=
  match splitAll '.' h with
  | [a, b, c, d] => specOctetOk a && specOctetOk b && specOctetOk c && specOctetOk d
  | _ => false

/-- Written from the specification text, for comparison with the code: a
strict IPv4 dotted quad with an optional trailing `:port` made of digits, and
nothing else. -/
def specHostPat (s : String) : Bool :=
  match splitAll ':' s.toList with
  | [h] => specDotted h
  | [h, pt] => specDotted h && !pt.isEmpty && pt.all Char.isDigit
  | _ => false

theorem repoFinish_str (s : String) :
    ∃ er m, repoFinish (.ok (.str s)) = .ret ⟨false, true, .str m⟩ er := by
  by_cases h : subStr "Status" s = true
  · exact ⟨true, "Error: string indices must be integers", by simp [repoFinish, statusInterp, h]⟩
  · exact ⟨false, s, by simp [repoFinish, statusInterp, h]⟩

/-- C1: for every remote response reaching the status interpretation, a
`Status` field valued `Success` yields `changed = true, failed = false`, a
`Status` field with any other value yields `changed = false, failed = true`,
and a missing `Status` field yields `changed = false, failed = true` — so a
recognizable status always sets exactly one of the two flags. -/
theorem c1_status_interpretation (d : RemoteResp) (idrac : Idrac) (p : Params)
    (hcat : catalogNameOk p.catalog_file_name = true)
    (hnw : shareIsUrl p.share_name = false)
    (hmnt : ((genApply idrac).use_redfish && optFalsy p.share_mnt) = false) :
    (dictGet d "Status" = some "Success" →
      (update_fw_from_repo (constRemote d) idrac p).1 =
        .ret ⟨true, false, .dict d⟩ false) ∧
    (∀ v, dictGet d "Status" = some v → v ≠ "Success" →
      (update_fw_from_repo (constRemote d) idrac p).1 =
        .ret ⟨false, true, .dict d⟩ false) ∧
    (dictGet d "Status" = none →
      (update_fw_from_repo (constRemote d) idrac p).1 =
        .ret ⟨false, true, .dict d⟩ false) := by
  refine ⟨fun h => ?_, fun v hv hne => ?_, fun h => ?_⟩ <;>
    simp [update_fw_from_repo, hcat, updateRepoAfterCatalogCheck, hnw, hmnt,
          update_fw_from_nw_share, constRemote, repoFinish, statusInterp, *]

theorem c1_status_interpretation_witness :
    (update_fw_from_repo (constRemote [("Status", "Failed")]) ⟨"14G", false⟩
        ⟨"\\\\192.168.10.10\\share", some "u", some "pw", "Catalog.xml",
         true, false, true, true, none⟩).1 =
      .ret ⟨false, true, .dict [("Status", "Failed")]⟩ false :=
  (c1_status_interpretation [("Status", "Failed")] ⟨"14G", false⟩
      ⟨"\\\\192.168.10.10\\share", some "u", some "pw", "Catalog.xml",
       true, false, true, true, none⟩
      (by decide) (by decide) (by decide)).2.1 "Failed" (by decide) (by decide)

/-- C2: every exception raised while building or executing the update request
(modelled by the remote oracle raising with text `e`) is caught:
`update_fw_from_repo` returns `changed = false`, `failed = true`,
message `Error: ` followed by the exception text, and the error flag set —
nothing propagates. -/
theorem c2_exception_swallowed (e : String) (idrac : Idrac) (p : Params)
    (hcat : catalogNameOk p.catalog_file_name = true)
    (hreach : (shareIsUrl p.share_name = true ∧
                ∃ r, update_fw_from_url_core p.share_name p.share_user p.share_pwd
                  p.catalog_file_name p.apply_update p.reboot p.job_wait = .call r) ∨
              (shareIsUrl p.share_name = false ∧
                ((genApply idrac).use_redfish && optFalsy p.share_mnt) = false)) :
    (update_fw_from_repo (errRemote e) idrac p).1 =
      .ret ⟨false, true, .str ("Error: " ++ e)⟩ true := by
  rcases hreach with ⟨hurl, r, hcall⟩ | ⟨hnw, hmnt⟩
  · simp [update_fw_from_repo, hcat, updateRepoAfterCatalogCheck, hurl,
          update_fw_from_url, hcall, errRemote, repoFinish]
  · simp [update_fw_from_repo, hcat, updateRepoAfterCatalogCheck, hnw, hmnt,
          update_fw_from_nw_share, errRemote, repoFinish]

theorem c2_exception_swallowed_witness :
    (update_fw_from_repo (errRemote "connection refused") ⟨"14G", false⟩
        ⟨"http://192.168.10.10/repo", some "u", some "pw", "Catalog.xml",
         true, false, true, true, none⟩).1 =
      .ret ⟨false, true, .str ("Error: " ++ "connection refused")⟩ true :=
  c2_exception_swallowed "connection refused" ⟨"14G", false⟩
    ⟨"http://192.168.10.10/repo", some "u", some "pw", "Catalog.xml",
     true, false, true, true, none⟩
    (by decide)
    (Or.inl ⟨by decide,
      ⟨⟨"192.168.10.10", "http", "/repo", some "u", some "pw", "Catalog.xml",
        true, false, true⟩, by decide⟩⟩)

/-- C3: a catalog file name that does not end in `.xml` case-insensitively
makes `update_fw_from_repo` terminate through `fail_json` with the
catalog-name error before any remote call (empty trace); names ending in
`.xml` or `.XML` pass the check and the body runs. -/
theorem c3_catalog_check (remote : Remote) (idrac : Idrac) (p : Params) :
    (catalogNameOk p.catalog_file_name = false →
      update_fw_from_repo remote idrac p =
        (.failJson (catalogErrMsg p.catalog_file_name), idrac, [])) ∧
    (∀ stem : String,
      catalogNameOk (stem ++ ".xml") = true ∧ catalogNameOk (stem ++ ".XML") = true) ∧
    (catalogNameOk p.catalog_file_name = true →
      update_fw_from_repo remote idrac p = updateRepoAfterCatalogCheck remote idrac p) := by
  refine ⟨fun h => by simp [update_fw_from_repo, h], fun stem => ⟨?_, ?_⟩,
          fun h => by simp [update_fw_from_repo, h]⟩
  · have hx : List.map Char.toLower ".xml".toList = ".xml".toList := by decide
    simp [catalogNameOk, lowerChars, String.toList, hx]
  · have hx : List.map Char.toLower ".XML".toList = ".xml".toList := by decide
    simp [catalogNameOk, lowerChars, String.toList, hx]

theorem c3_catalog_check_witness :
    update_fw_from_repo (constRemote []) ⟨"14G", false⟩
        ⟨"\\\\192.168.10.10\\share", some "u", some "pw", "Catalog.txt",
         true, false, true, true, none⟩ =
      (.failJson (catalogErrMsg "Catalog.txt"), ⟨"14G", false⟩, []) :=
  (c3_catalog_check (constRemote []) ⟨"14G", false⟩
      ⟨"\\\\192.168.10.10\\share", some "u", some "pw", "Catalog.txt",
       true, false, true, true, none⟩).1 (by decide)

/-- C4 counterexample: `http://1.2.3.4:21ab/x` is classified as a URL, its
host `1.2.3.4:21ab` does not match the strict dotted-quad-with-optional-port
pattern stated by the claim, yet the operation does not fail: the anchored
regex of line 201 accepts the host (the port lookahead checks only the first
two digits after the colon), the remote call is issued and its response is
returned. -/
theorem c4_counterexample :
    shareIsUrl "http://1.2.3.4:21ab/x" = true ∧
    specHostPat (urlparse3 "http://1.2.3.4:21ab/x").netloc = false ∧
    (update_fw_from_repo (constRemote [("Status", "Success")]) ⟨"14G", true⟩
        ⟨"http://1.2.3.4:21ab/x", some "u", some "pw", "Catalog.xml",
         true, false, true, true, none⟩).2.2 =
      [Call.url ⟨"1.2.3.4:21ab", "http", "/x", some "u", some "pw", "Catalog.xml",
                 true, false, true⟩ false] ∧
    (update_fw_from_repo (constRemote [("Status", "Success")]) ⟨"14G", true⟩
        ⟨"http://1.2.3.4:21ab/x", some "u", some "pw", "Catalog.xml",
         true, false, true, true, none⟩).1 =
      .ret ⟨true, false, .dict [("Status", "Success")]⟩ false := by
  refine ⟨by decide, by decide, by decide, by decide⟩

theorem url_core_call_valid {share_name catalog_file_name : String}
    {share_user share_pwd : Option String} {apply_update reboot job_wait : Bool}
    {r : UrlRequest}
    (h : update_fw_from_url_core share_name share_user share_pwd catalog_file_name
        apply_update reboot job_wait = .call r) :
    (schemes.contains (urlparse3 share_name).scheme &&
     ((urlparse3 share_name).netloc != "") &&
     ipv4Match (urlparse3 share_name).netloc) = true := by
  by_cases h1 : schemes.contains (urlparse3 share_name).scheme = true
  · by_cases h2 : ((urlparse3 share_name).netloc != "" &&
        ipv4Match (urlparse3 share_name).netloc) = true
    · rw [Bool.and_eq_true] at h2
      simp only [Bool.and_eq_true]
      exact ⟨⟨h1, h2.1⟩, h2.2⟩
    · have h2f : ((urlparse3 share_name).netloc != "" &&
          ipv4Match (urlparse3 share_name).netloc) = false := by simpa using h2
      simp only [update_fw_from_url_core] at h
      rw [h1, h2f] at h
      simp at h
  · have h1f : schemes.contains (urlparse3 share_name).scheme = false := by simpa using h1
    simp only [update_fw_from_url_core] at h
    rw [h1f] at h
    simp at h

/-- C4 amended: on the URL path, whenever the parsed scheme is not in
`{ftp, http, https}`, or the netloc (taken from the locator after `urllib`
removes tab, carriage return and newline characters) is empty, or the netloc
fails the anchored IPv4 regex of line 201 (four 0-255 octets followed by the
end of the host — a trailing newline also satisfying the `$` anchor — or by a
colon and two to five digits, characters after those digits not being
inspected), the operation returns a failed outcome carrying an error string
and no remote call is attempted. -/
theorem c4_invalid_url_rejected (remote : Remote) (idrac : Idrac) (p : Params)
    (hcat : catalogNameOk p.catalog_file_name = true)
    (hurl : shareIsUrl p.share_name = true)
    (hbad : (schemes.contains (urlparse3 p.share_name).scheme &&
             ((urlparse3 p.share_name).netloc != "") &&
             ipv4Match (urlparse3 p.share_name).netloc) = false) :
    (update_fw_from_repo remote idrac p).2.2 = [] ∧
    ∃ er m, (update_fw_from_repo remote idrac p).1 = .ret ⟨false, true, .str m⟩ er := by
  rcases hcore : update_fw_from_url_core p.share_name p.share_user p.share_pwd
      p.catalog_file_name p.apply_update p.reboot p.job_wait with m | r
  · refine ⟨?_, ?_⟩
    · simp [update_fw_from_repo, hcat, updateRepoAfterCatalogCheck, hurl,
            update_fw_from_url, hcore]
    · have h1 : (update_fw_from_repo remote idrac p).1 = repoFinish (.ok (.str m)) := by
        simp [update_fw_from_repo, hcat, updateRepoAfterCatalogCheck, hurl,
              update_fw_from_url, hcore]
      rw [h1]
      exact repoFinish_str m
  · have hval := url_core_call_valid hcore
    rw [hbad] at hval
    simp at hval

theorem c4_invalid_url_rejected_witness :
    (update_fw_from_repo (constRemote [("Status", "Success")]) ⟨"14G", false⟩
        ⟨"http://my-hostname/share", some "u", some "pw", "Catalog.xml",
         true, false, true, true, none⟩).2.2 = [] ∧
    ∃ er m,
      (update_fw_from_repo (constRemote [("Status", "Success")]) ⟨"14G", false⟩
          ⟨"http://my-hostname/share", some "u", some "pw", "Catalog.xml",
           true, false, true, true, none⟩).1 = .ret ⟨false, true, .str m⟩ er :=
  c4_invalid_url_rejected (constRemote [("Status", "Success")]) ⟨"14G", false⟩
    ⟨"http://my-hostname/share", some "u", some "pw", "Catalog.xml",
     true, false, true, true, none⟩
    (by decide) (by decide) (by decide)

/-- C5: classification depends only on the (case-insensitive) prefix of the
share locator: locators whose lower-cased form starts with `http://`,
`https://` or `ftp://` take the URL branch (any remote call in the trace is a
URL call), and every other locator takes the network-share branch, the raw
locator string being passed through unchanged in the composed catalog path. -/
theorem c5_share_classification (remote : Remote) (idrac : Idrac) (p : Params)
    (hcat : catalogNameOk p.catalog_file_name = true) :
    (shareIsUrl p.share_name = true →
      ∀ c ∈ (update_fw_from_repo remote idrac p).2.2, ∃ r f, c = Call.url r f) ∧
    (shareIsUrl p.share_name = false →
      ((genApply idrac).use_redfish && optFalsy p.share_mnt) = false →
      (update_fw_from_repo remote idrac p).2.2 =
        [Call.nw ⟨⟨p.share_name, p.share_user, p.share_pwd, p.catalog_file_name⟩,
                  p.apply_update, p.reboot, p.job_wait⟩ (genApply idrac).use_redfish]) := by
  constructor
  · intro hurl c hc
    simp [update_fw_from_repo, hcat, updateRepoAfterCatalogCheck, hurl,
          update_fw_from_url] at hc
    rcases hcore : update_fw_from_url_core p.share_name p.share_user p.share_pwd
        p.catalog_file_name p.apply_update p.reboot p.job_wait with m | r
    · simp [hcore] at hc
    · simp [hcore] at hc
      exact ⟨r, false, hc⟩
  · intro hnw hmnt
    simp [update_fw_from_repo, hcat, updateRepoAfterCatalogCheck, hnw, hmnt,
          update_fw_from_nw_share]

theorem c5_share_classification_witness :
    (update_fw_from_repo (constRemote []) ⟨"14G", false⟩
        ⟨"\\\\192.168.10.10\\share", some "u", some "pw", "Catalog.xml",
         true, false, true, true, none⟩).2.2 =
      [Call.nw ⟨⟨"\\\\192.168.10.10\\share", some "u", some "pw", "Catalog.xml"⟩,
                true, false, true⟩ false] :=
  (c5_share_classification (constRemote []) ⟨"14G", false⟩
      ⟨"\\\\192.168.10.10\\share", some "u", some "pw", "Catalog.xml",
       true, false, true, true, none⟩ (by decide)).2 (by decide) (by decide)

/-- Computed session protocol flag attached to a recorded call. -/
def callUsesRedfish : Call → Bool
  | .url _ f => f
  | .nw _ f => f

/-- Whether a recorded call went through the URL entry point. -/
def callIsUrl : Call → Bool
  | .url _ _ => true
  | .nw _ _ => false

/-- C6: every remote call issued with a server generation containing `12` or
`13` carries `use_redfish = false`, and every URL-branch call carries
`use_redfish = false` regardless of the initial flag — a URL-based update is
never issued in Redfish mode. -/
theorem c6_redfish_forcing (remote : Remote) (idrac : Idrac) (p : Params) (c : Call)
    (hc : c ∈ (update_fw_from_repo remote idrac p).2.2)
    (h : callIsUrl c = true ∨ genLegacy idrac.ServerGeneration = true) :
    callUsesRedfish c = false := by
  by_cases hcat : catalogNameOk p.catalog_file_name
  · by_cases hurl : shareIsUrl p.share_name
    · simp [update_fw_from_repo, hcat, updateRepoAfterCatalogCheck, hurl,
            update_fw_from_url] at hc
      rcases hcore : update_fw_from_url_core p.share_name p.share_user p.share_pwd
          p.catalog_file_name p.apply_update p.reboot p.job_wait with m | r
      · simp [hcore] at hc
      · simp [hcore] at hc
        simp [hc, callUsesRedfish]
    · have hurlf : shareIsUrl p.share_name = false := by simpa using hurl
      by_cases hmnt : ((genApply idrac).use_redfish && optFalsy p.share_mnt) = true
      · simp [update_fw_from_repo, hcat, updateRepoAfterCatalogCheck, hurlf, hmnt] at hc
      · have hmntf : ((genApply idrac).use_redfish && optFalsy p.share_mnt) = false := by
          simpa using hmnt
        simp [update_fw_from_repo, hcat, updateRepoAfterCatalogCheck, hurlf, hmntf,
              update_fw_from_nw_share] at hc
        rcases h with h | h
        · simp [hc, callIsUrl] at h
        · simp [hc, callUsesRedfish, genApply, genLegacy] at h ⊢
          simp [h]
  · have hcatf : catalogNameOk p.catalog_file_name = false := by simpa using hcat
    simp [update_fw_from_repo, hcatf] at hc

theorem c6_redfish_forcing_witness :
    callUsesRedfish
      (Call.nw ⟨⟨"\\\\192.168.10.10\\share", some "u", some "pw", "Catalog.xml"⟩,
                true, false, true⟩ false) = false :=
  c6_redfish_forcing (constRemote [("Status", "Success")]) ⟨"iDRAC 13G", true⟩
    ⟨"\\\\192.168.10.10\\share", some "u", some "pw", "Catalog.xml",
     true, false, true, true, some "/mnt/cifs"⟩
    (Call.nw ⟨⟨"\\\\192.168.10.10\\share", some "u", some "pw", "Catalog.xml"⟩,
              true, false, true⟩ false)
    (by decide) (Or.inr (by decide))

/-- C7 counterexample: with Redfish mode active, a network share and
`share_mnt` supplied as the empty string, the module does not proceed to the
network-share update: the Python truthiness test treats the supplied empty
string like an absent parameter and `fail_json` fires with no remote call. -/
theorem c7_counterexample :
    (⟨"\\\\192.168.10.10\\share", some "u", some "pw", "Catalog.xml",
      true, false, true, true, some ""⟩ : Params).share_mnt = some "" ∧
    update_fw_from_repo (constRemote [("Status", "Success")]) ⟨"14G", true⟩
        ⟨"\\\\192.168.10.10\\share", some "u", some "pw", "Catalog.xml",
         true, false, true, true, some ""⟩ =
      (.failJson mntMissingMsg, ⟨"14G", true⟩, []) := by
  refine ⟨rfl, by decide⟩

/-- C7 amended: on the network-share branch with Redfish mode active after the
generation check, a `share_mnt` that is absent or empty makes the module
terminate through `fail_json` with the missing-mount-point error before any
remote call; when `share_mnt` is a non-empty string or Redfish mode is off,
the network-share update call is issued. -/
theorem c7_mount_point_guard (remote : Remote) (idrac : Idrac) (p : Params)
    (hcat : catalogNameOk p.catalog_file_name = true)
    (hnw : shareIsUrl p.share_name = false) :
    ((genApply idrac).use_redfish = true → optFalsy p.share_mnt = true →
      update_fw_from_repo remote idrac p = (.failJson mntMissingMsg, genApply idrac, [])) ∧
    (((genApply idrac).use_redfish && optFalsy p.share_mnt) = false →
      (update_fw_from_repo remote idrac p).2.2 =
        [Call.nw ⟨⟨p.share_name, p.share_user, p.share_pwd, p.catalog_file_name⟩,
                  p.apply_update, p.reboot, p.job_wait⟩ (genApply idrac).use_redfish]) := by
  constructor
  · intro hr hm
    simp [update_fw_from_repo, hcat, updateRepoAfterCatalogCheck, hnw, hr, hm]
  · intro hmnt
    simp [update_fw_from_repo, hcat, updateRepoAfterCatalogCheck, hnw, hmnt,
          update_fw_from_nw_share]

theorem c7_mount_point_guard_witness :
    update_fw_from_repo (constRemote []) ⟨"14G", true⟩
        ⟨"\\\\192.168.10.10\\share", some "u", some "pw", "Catalog.xml",
         true, false, true, true, none⟩ =
      (.failJson mntMissingMsg, genApply ⟨"14G", true⟩, []) :=
  (c7_mount_point_guard (constRemote []) ⟨"14G", true⟩
      ⟨"\\\\192.168.10.10\\share", some "u", some "pw", "Catalog.xml",
       true, false, true, true, none⟩ (by decide) (by decide)).1 (by decide) (by decide)

/-- C8: whenever the URL validation succeeds and a request is built, the
`share_name` handed to `update_from_repo_url` is the parsed URL path when that
path is non-empty, and `/` when the parsed path is empty — it is never the
empty string. -/
theorem c8_url_path_default (share_name catalog_file_name : String)
    (share_user share_pwd : Option String) (apply_update reboot job_wait : Bool)
    (r : UrlRequest)
    (h : update_fw_from_url_core share_name share_user share_pwd catalog_file_name
        apply_update reboot job_wait = .call r) :
    r.share_name =
      (if (urlparse3 share_name).path = "" then "/" else (urlparse3 share_name).path) ∧
    r.share_name ≠ "" := by
  by_cases h1 : schemes.contains (urlparse3 share_name).scheme = true
  · by_cases h2 : ((urlparse3 share_name).netloc != "" &&
        ipv4Match (urlparse3 share_name).netloc) = true
    · simp only [update_fw_from_url_core] at h
      rw [h1, h2] at h
      simp only [Bool.not_true, if_false, Bool.false_eq_true, UrlCheck.call.injEq] at h
      subst h
      constructor
      · by_cases hp : (urlparse3 share_name).path = ""
        · simp [hp]
        · simp [hp]
      · by_cases hp : (urlparse3 share_name).path = ""
        · simp [hp]
        · simp [hp]
    · have h2f : ((urlparse3 share_name).netloc != "" &&
          ipv4Match (urlparse3 share_name).netloc) = false := by simpa using h2
      simp only [update_fw_from_url_core] at h
      rw [h1, h2f] at h
      simp at h
  · have h1f : schemes.contains (urlparse3 share_name).scheme = false := by simpa using h1
    simp only [update_fw_from_url_core] at h
    rw [h1f] at h
    simp at h

theorem c8_url_path_default_witness :
    (⟨"192.168.10.10", "http", "/", some "u", some "pw", "Catalog.xml",
      true, false, true⟩ : UrlRequest).share_name =
      (if (urlparse3 "http://192.168.10.10").path = "" then "/"
       else (urlparse3 "http://192.168.10.10").path) ∧
    (⟨"192.168.10.10", "http", "/", some "u", some "pw", "Catalog.xml",
      true, false, true⟩ : UrlRequest).share_name ≠ "" :=
  c8_url_path_default "http://192.168.10.10" "Catalog.xml" (some "u") (some "pw")
    true false true
    ⟨"192.168.10.10", "http", "/", some "u", some "pw", "Catalog.xml", true, false, true⟩
    (by decide)

/-- C9 counterexample: flipping `ignore_cert_warning` between `true` and
`false` leaves the request handed to the remote update service on the URL
branch unchanged — the flag is not part of the request, so it is not forwarded
to the remote call. -/
theorem c9_counterexample :
    (update_fw_from_repo (constRemote [("Status", "Success")]) ⟨"14G", true⟩
        ⟨"http://192.168.10.10/repo", some "u", some "pw", "Catalog.xml",
         true, false, true, true, none⟩).2.2 =
      (update_fw_from_repo (constRemote [("Status", "Success")]) ⟨"14G", true⟩
          ⟨"http://192.168.10.10/repo", some "u", some "pw", "Catalog.xml",
           true, false, true, false, none⟩).2.2 ∧
    (update_fw_from_repo (constRemote [("Status", "Success")]) ⟨"14G", true⟩
        ⟨"http://192.168.10.10/repo", some "u", some "pw", "Catalog.xml",
         true, false, true, true, none⟩).2.2 =
      [Call.url ⟨"192.168.10.10", "http", "/repo", some "u", some "pw", "Catalog.xml",
                 true, false, true⟩ false] := by
  refine ⟨by decide, by decide⟩

/-- C9 amended: `ignore_cert_warning` is read from the parameters and passed
to the URL helper function, but it is not among the keyword arguments of the
remote update call; the whole behaviour of `update_fw_from_repo` — result,
session state and issued requests — is independent of the flag. -/
theorem c9_icw_not_in_request (remote : Remote) (idrac : Idrac) (p : Params) (b : Bool) :
    update_fw_from_repo remote idrac { p with ignore_cert_warning := b } =
      update_fw_from_repo remote idrac p := rfl

/-- C10: `update_fw_from_repo` returns the error flag `false` on the
normal path, so a remote response with a recognizable non-`Success` status
yields `failed = true` with `err = false`, and `main` then reports the outcome
through `exit_json`, not `fail_json`. -/
theorem c10_nonsuccess_exit_json (d : RemoteResp) (idrac : Idrac) (p : Params) (v : String)
    (hcat : catalogNameOk p.catalog_file_name = true)
    (hnw : shareIsUrl p.share_name = false)
    (hmnt : ((genApply idrac).use_redfish && optFalsy p.share_mnt) = false)
    (hstat : dictGet d "Status" = some v) (hne : v ≠ "Success") :
    (update_fw_from_repo (constRemote d) idrac p).1 =
      .ret ⟨false, true, .dict d⟩ false ∧
    mainReport (⟨false, true, .dict d⟩, false) = .exitJsonR ⟨false, true, .dict d⟩ := by
  constructor
  · simp [update_fw_from_repo, hcat, updateRepoAfterCatalogCheck, hnw, hmnt,
          update_fw_from_nw_share, constRemote, repoFinish, statusInterp, hstat, hne]
  · rfl

theorem c10_nonsuccess_exit_json_witness :
    (update_fw_from_repo (constRemote [("Status", "Failed"), ("JobStatus", "Critical")])
        ⟨"14G", false⟩
        ⟨"\\\\192.168.10.10\\share", some "u", some "pw", "Catalog.xml",
         true, false, true, true, none⟩).1 =
      .ret ⟨false, true, .dict [("Status", "Failed"), ("JobStatus", "Critical")]⟩ false ∧
    mainReport (⟨false, true, .dict [("Status", "Failed"), ("JobStatus", "Critical")]⟩, false) =
      .exitJsonR ⟨false, true, .dict [("Status", "Failed"), ("JobStatus", "Critical")]⟩ :=
  c10_nonsuccess_exit_json [("Status", "Failed"), ("JobStatus", "Critical")]
    ⟨"14G", false⟩
    ⟨"\\\\192.168.10.10\\share", some "u", some "pw", "Catalog.xml",
     true, false, true, true, none⟩
    "Failed" (by decide) (by decide) (by decide) (by decide) (by decide)

example : ipv4Match "192.168.10.10" = true := by decide
example : ipv4Match "1.2.3.4:8080" = true := by decide
example : ipv4Match "1.2.3.4:8" = false := by decide
example : ipv4Match "1.2.3.4:21ab" = true := by decide
example : specHostPat "1.2.3.4:21ab" = false := by decide
example : ipv4Match "256.1.1.1" = false := by decide
example : ipv4Match "my-hostname" = false := by decide
example : urlparse3 "http://192.168.10.10" = ⟨"http", "192.168.10.10", ""⟩ := by decide
example : urlparse3 "HTTP://192.168.10.10/repo/cat.xml" = ⟨"http", "192.168.10.10", "/repo/cat.xml"⟩ := by decide
example : catalogNameOk "Catalog.XML" = true := by decide
example : catalogNameOk "Catalog.txt" = false := by decide
example : shareIsUrl "FTP://1.2.3.4/x" = true := by decide
example : shareIsUrl "\\\\192.168.10.10\\share" = false := by decide
example : genLegacy "iDRAC 13G" = true := by decide
example : ipv4Match "01.2.3.4" = true := by decide
example : ipv4Match "1.2.3.4.5" = false := by decide
example : ipv4Match "1.2.3.4:123456" = true := by decide
example : ipv4Match "user@1.2.3.4" = false := by decide
example : ipv4Match "299.1.1.1" = false := by decide
example : ipv4Match "1.2.3.45x" = false := by decide
example : ipv4Match "0.0.0.0" = true := by decide
example : ipv4Match "[::1]" = false := by decide
example : urlparse3 "http://1.2.3.4:21ab/x" = ⟨"http", "1.2.3.4:21ab", "/x"⟩ := by decide
example : urlparse3 "http://" = ⟨"http", "", ""⟩ := by decide
example : urlparse3 "ftp://1.2.3.4/a;b" = ⟨"ftp", "1.2.3.4", "/a"⟩ := by decide
example : urlparse3 "http://1.2.3.4/a/b;c?q#f" = ⟨"http", "1.2.3.4", "/a/b"⟩ := by decide
example : urlparse3 "hTtPs://1.2.3.4" = ⟨"https", "1.2.3.4", ""⟩ := by decide
example : ipv4Match "1.2.3.4\n" = true := by decide
example : ipv4Match "1.2.3.4\nx" = false := by decide
example : ipv4Match "1.2.3.4\r\n" = false := by decide
example : ipv4Match "1.2.3.4:21\n" = true := by decide
example : ipv4Match "1.2.3.4:2\n" = false := by decide
example : ipv4Match "1.2.3.4\t" = false := by decide
example : urlparse3 "http://1.2.3.4\n/x" = ⟨"http", "1.2.3.4", "/x"⟩ := by decide
example : urlparse3 "http://1.2.\t3.4/x" = ⟨"http", "1.2.3.4", "/x"⟩ := by decide
example : urlparse3 " http://1.2.3.4 " = ⟨"http", "1.2.3.4 ", ""⟩ := by decide

end FwUpdate
